import Mathlib

/-!
Verification of the hydraulic formula calculation engine
(`backend/services/hydraulic/hydraulicCalculator.py`).

The engine is embedded shallowly:
* Python floats are modelled as exact rationals (`ℚ`); the spec's numeric
  claims are stated with explicit tolerances where it writes `≈`.
* Fallible evaluation is modelled with `Except CalcError`:
  - a failed dict lookup (Python `KeyError '<sym>'`) is
    `CalcError.missingParameter sym` — the spec's `MissingParameter`;
  - Python `ZeroDivisionError` and `math` domain `ValueError`s are
    `CalcError.invalidInput` — the spec's `InvalidInput` category;
  - the `ValueError("Unknown formula ID: …")` raised by `calculate` is
    `CalcError.unknownFormula id` — the spec's `UnknownFormula`.
* The irrational-valued primitives (`math.pi`, `math.sqrt`, float `**`
  with a fractional exponent) are modelled by computable rational
  stand-ins; no verified statement depends on their values, only on their
  domain behaviour (negative argument to `sqrt` raises; `0 ** e = 0`).
* Display-only f-string renderings (the `formula` field of an
  intermediate step, and the numeric formatting inside recommendation
  strings) are not modelled; a parametrised message instead carries the
  exact pre-formatting number.
-/

namespace Hydraulic

/-- One caller-supplied input: `{value: number, unit: string}`. -/
structure RawValue where
  value : ℚ
  unit : String
deriving DecidableEq

/-- The caller-supplied input map `symbol → {value, unit}`.  Python dicts
are ordered with unique keys; an association list in insertion order. -/
abbrev RawInputs := List (String × RawValue)

/-- The normalized map `symbol → number` produced by `_convert_to_si`. -/
abbrev SIInputs := List (String × ℚ)

/-- The engine's error taxonomy.  Each constructor names the Python
exception it stands for (see the module docstring). -/
inductive CalcError where
  | unknownFormula (id : String)
  | missingParameter (symbol : String)
  | invalidInput
deriving DecidableEq

/-- A warning or recommendation message.  Fixed-text messages carry the
exact source string; messages whose source f-string interpolates a
computed number carry that number instead of its decimal rendering. -/
inductive Msg where
  | text (s : String)
  | motorSize (kW : ℚ)
  | totalCapacity (liters : ℚ)
  | effectiveVolume (liters : ℚ)
  | criticalLength (m : ℚ)
deriving DecidableEq

/-- One intermediate derivation step.  The source dataclass also has a
display-only `formula` f-string, which is not modelled. -/
structure IntermediateStep where
  description : String
  result : ℚ
deriving DecidableEq

/-- The primary result `{value, unit}`. -/
structure ResultValue where
  value : ℚ
  unit : String
deriving DecidableEq

/-- `CalculationResponse`.  Note: the source dataclass annotates `inputs`
as `Dict[str, Dict[str, Any]]`, but every evaluator actually stores the
bare `symbol → float` map returned by `_convert_to_si`; the field is
typed here as what is actually stored. -/
structure CalculationResponse where
  result : ResultValue
  inputs : SIInputs
  intermediate_steps : List IntermediateStep
  warnings : List Msg
  recommendations : List Msg
deriving DecidableEq

/-- The instance attributes set by `HydraulicCalculator.__init__`; no
method ever writes them. -/
structure HydraulicCalculator where
  gravity : ℚ
  water_density : ℚ
  kinematic_viscosity : ℚ
deriving DecidableEq

/-- `HydraulicCalculator()` — the constructor's constant values. -/
def HydraulicCalculator.init : HydraulicCalculator :=
  { gravity := 9.81, water_density := 1000, kinematic_viscosity := 1.003e-6 }

/-- Python float division: raises `ZeroDivisionError` on a zero
denominator (it does not produce an IEEE special value). -/
def pydiv (a b : ℚ) : Except CalcError ℚ :=
  if b = 0 then .error .invalidInput else .ok (a / b)

/-- `math.sqrt`: raises `ValueError` (math domain error) on a negative
argument.  On a nonnegative argument its irrational value is replaced by
the computable stand-in `Rat.sqrt`; no verified claim depends on it. -/
def pysqrt (x : ℚ) : Except CalcError ℚ :=
  if x < 0 then .error .invalidInput else .ok (Rat.sqrt x)

/-- Python float `**` with a fractional literal exponent (1.852, 4.871).
Its value is irrational and no verified claim depends on it, so it is
replaced by a computable rational stand-in that preserves the one
property the development uses: `0 ** e = 0` for the positive exponents
that occur.  (For a negative base Python promotes the result to complex;
the stand-in stays rational — no verified claim exercises that corner,
and the one place it feeds a verified outcome, division by a zero
denominator when `D = 0`, raises `ZeroDivisionError` in Python for
complex operands just the same.) -/
def pypow (b e : ℚ) : ℚ :=
  if b = 0 then 0 else b ^ e.floor

/-- `math.pi` — a rational stand-in; no verified claim depends on it. -/
def piQ : ℚ := 3.141592653589793

/-- The unit-keyed factor applied by `_convert_to_si` to one value: the
`if`/`elif` chain over the literal unit string, with pass-through for
every other unit. -/
def convert_unit (value : ℚ) (unit : String) : ℚ :=
  if unit = "ft" then value * 0.3048
  else if unit = "km" then value * 1000
  else if unit = "mm" then value / 1000
  else if unit = "in" then value * 0.0254
  else if unit = "cm" then value / 100
  else if unit = "cm²" then value / 10000
  else if unit = "ft²" then value * 0.092903
  else if unit = "in²" then value * 0.00064516
  else if unit = "L/s" then value / 1000
  else if unit = "gpm" then value * 0.00006309
  else if unit = "ft/s" then value * 0.3048
  else value

/-- `_convert_to_si`: converts every `(value, unit)` pair, keeping the
parameter keys and their order. -/
def convert_to_si (inputs : RawInputs) : SIInputs :=
  inputs.map fun p => (p.1, convert_unit p.2.value p.2.unit)

/-- The unit strings recognized by the converter. -/
def recognizedUnits : List String :=
  ["ft", "km", "mm", "in", "cm", "cm²", "ft²", "in²", "L/s", "gpm", "ft/s"]

/-- `inputs['sym']` on the normalized map: Python raises `KeyError sym`
when the symbol is absent. -/
def getParam (si : SIInputs) (sym : String) : Except CalcError ℚ :=
  match si.lookup sym with
  | some v => .ok v
  | none => .error (.missingParameter sym)

/-- "Velocity is low. Risk of sedimentation." (darcy_weisbach). -/
def msgDWLowVelocity : Msg := .text "Velocity is low. Risk of sedimentation."

/-- "Velocity is high. Risk of erosion and noise." (darcy_weisbach). -/
def msgDWHighVelocity : Msg := .text "Velocity is high. Risk of erosion and noise."

/-- "Flow is laminar. Consider using f = 64/Re." -/
def msgLaminar : Msg := .text "Flow is laminar. Consider using f = 64/Re."

/-- "Flow is turbulent. Verify friction factor using Moody diagram or Colebrook equation." -/
def msgTurbulent : Msg :=
  .text "Flow is turbulent. Verify friction factor using Moody diagram or Colebrook equation."

/-- "Low C value indicates old or rough pipes." (hazen_williams). -/
def msgHWLowC : Msg := .text "Low C value indicates old or rough pipes."

/-- "High C value - ensure it matches pipe material." (hazen_williams). -/
def msgHWHighC : Msg := .text "High C value - ensure it matches pipe material."

/-- "Low velocity - risk of sedimentation." (hazen_williams). -/
def msgHWLowVelocity : Msg := .text "Low velocity - risk of sedimentation."

/-- "High velocity - risk of erosion." (hazen_williams). -/
def msgHWHighVelocity : Msg := .text "High velocity - risk of erosion."

/-- "Very low velocity - check for stagnation." (continuity_equation). -/
def msgCELowVelocity : Msg := .text "Very low velocity - check for stagnation."

/-- "Very high velocity - check pipe rating." (continuity_equation). -/
def msgCEHighVelocity : Msg := .text "Very high velocity - check pipe rating."

/-- "Very low head - results may be inaccurate." (orifice_flow). -/
def msgOFLowHead : Msg := .text "Very low head - results may be inaccurate."

/-- "Low discharge coefficient - check for sharp edges." (orifice_flow). -/
def msgOFLowCd : Msg := .text "Low discharge coefficient - check for sharp edges."

/-- "Low pump efficiency - consider pump replacement." (pump_power). -/
def msgPPLowEfficiency : Msg := .text "Low pump efficiency - consider pump replacement."

/-- "High power requirement - consider multiple pumps." (pump_power). -/
def msgPPHighPower : Msg := .text "High power requirement - consider multiple pumps."

/-- "Tank is very wide - check structural design." (tank_volume). -/
def msgTVWide : Msg := .text "Tank is very wide - check structural design."

/-- "Tank is very tall - check stability." (tank_volume). -/
def msgTVTall : Msg := .text "Tank is very tall - check stability."

/-- "High pressure surge - risk of pipe damage!" (water_hammer_pressure). -/
def msgWHSurge : Msg := .text "High pressure surge - risk of pipe damage!"

/-- "Consider installing surge protection devices." (water_hammer_pressure). -/
def msgWHProtection : Msg := .text "Consider installing surge protection devices."

/-- "Large velocity change - use slow-closing valves." (water_hammer_pressure). -/
def msgWHSlowValves : Msg := .text "Large velocity change - use slow-closing valves."

/-- `_calculate_darcy_weisbach`.  Divisions whose denominator is an input
use `pydiv`; divisions by the instance constants (`2*gravity`,
`kinematic_viscosity`), which the constructor fixes to nonzero values and
no method ever writes, use total division. -/
def calculate_darcy_weisbach (c : HydraulicCalculator) (si : SIInputs) :
    Except CalcError CalculationResponse := do
  let f ← getParam si "f"
  let L ← getParam si "L"
  let D ← getParam si "D"
  let V ← getParam si "V"
  let ld ← pydiv L D
  let hf := f * ld * (V ^ 2 / (2 * c.gravity))
  let re := V * D / c.kinematic_viscosity
  let steps : List IntermediateStep :=
    [⟨"Calculate velocity head", V ^ 2 / (2 * c.gravity)⟩,
     ⟨"Calculate L/D ratio", ld⟩,
     ⟨"Calculate Reynolds number", re⟩]
  let warnings : List Msg :=
    if V < 0.6 then [msgDWLowVelocity]
    else if V > 3 then [msgDWHighVelocity]
    else []
  let recommendations : List Msg :=
    if re < 2000 then [msgLaminar]
    else if re > 4000 then [msgTurbulent]
    else []
  return { result := ⟨hf, "m"⟩, inputs := si, intermediate_steps := steps,
           warnings := warnings, recommendations := recommendations }

/-- `_calculate_hazen_williams`. -/
def calculate_hazen_williams (_c : HydraulicCalculator) (si : SIInputs) :
    Except CalcError CalculationResponse := do
  let L ← getParam si "L"
  let Q ← getParam si "Q"
  let C ← getParam si "C"
  let D ← getParam si "D"
  let hf ← pydiv (10.67 * L * pypow Q 1.852) (pypow C 1.852 * pypow D 4.871)
  let A := piQ * D ^ 2 / 4
  let V ← pydiv Q A
  let steps : List IntermediateStep :=
    [⟨"Calculate pipe area", A⟩,
     ⟨"Calculate velocity", V⟩]
  let warnings : List Msg :=
    (if C < 100 then [msgHWLowC] else []) ++
    (if V < 0.6 then [msgHWLowVelocity]
     else if V > 3 then [msgHWHighVelocity]
     else [])
  let recommendations : List Msg :=
    if C < 100 then [] else if C > 140 then [msgHWHighC] else []
  return { result := ⟨hf, "m"⟩, inputs := si, intermediate_steps := steps,
           warnings := warnings, recommendations := recommendations }

/-- `_calculate_continuity`. -/
def calculate_continuity (_c : HydraulicCalculator) (si : SIInputs) :
    Except CalcError CalculationResponse := do
  let A ← getParam si "A"
  let V ← getParam si "V"
  let Q := A * V
  let dEquiv ← pysqrt (4 * A / piQ)
  let steps : List IntermediateStep :=
    [⟨"Calculate flow rate", Q⟩,
     ⟨"Calculate equivalent diameter", dEquiv⟩]
  let warnings : List Msg :=
    if V < 0.3 then [msgCELowVelocity]
    else if V > 5 then [msgCEHighVelocity]
    else []
  return { result := ⟨Q, "m³/s"⟩, inputs := si, intermediate_steps := steps,
           warnings := warnings, recommendations := [] }

/-- `_calculate_orifice_flow`. -/
def calculate_orifice_flow (c : HydraulicCalculator) (si : SIInputs) :
    Except CalcError CalculationResponse := do
  let Cd ← getParam si "Cd"
  let A ← getParam si "A"
  let h ← getParam si "h"
  let v ← pysqrt (2 * c.gravity * h)
  let Q := Cd * A * v
  let steps : List IntermediateStep :=
    [⟨"Calculate theoretical velocity", v⟩,
     ⟨"Calculate theoretical flow", A * v⟩]
  let warnings : List Msg := if h < 0.1 then [msgOFLowHead] else []
  let recommendations : List Msg := if Cd < 0.6 then [msgOFLowCd] else []
  return { result := ⟨Q, "m³/s"⟩, inputs := si, intermediate_steps := steps,
           warnings := warnings, recommendations := recommendations }

/-- `_calculate_pump_power`. -/
def calculate_pump_power (c : HydraulicCalculator) (si : SIInputs) :
    Except CalcError CalculationResponse := do
  let Q ← getParam si "Q"
  let H ← getParam si "H"
  let eta ← getParam si "η"
  let pHyd := c.water_density * c.gravity * Q * H
  let pShaft ← pydiv pHyd eta
  let pKW := pShaft / 1000
  let steps : List IntermediateStep :=
    [⟨"Calculate hydraulic power", pHyd⟩,
     ⟨"Calculate shaft power", pShaft⟩]
  let warnings : List Msg := if eta < 0.5 then [msgPPLowEfficiency] else []
  let recommendations : List Msg :=
    (if pKW > 100 then [msgPPHighPower] else []) ++ [.motorSize (pKW * 1.15)]
  return { result := ⟨pKW, "kW"⟩, inputs := si, intermediate_steps := steps,
           warnings := warnings, recommendations := recommendations }

/-- `_calculate_tank_volume`. -/
def calculate_tank_volume (_c : HydraulicCalculator) (si : SIInputs) :
    Except CalcError CalculationResponse := do
  let D ← getParam si "D"
  let H ← getParam si "H"
  let V := piQ * D ^ 2 / 4 * H
  let aSurface := piQ * D ^ 2 / 4
  let vLiters := V * 1000
  let steps : List IntermediateStep :=
    [⟨"Calculate tank area", aSurface⟩,
     ⟨"Calculate volume in m³", V⟩,
     ⟨"Convert to liters", vLiters⟩]
  let aspect ← pydiv H D
  let warnings : List Msg :=
    if aspect < 0.5 then [msgTVWide]
    else if aspect > 3 then [msgTVTall]
    else []
  let recommendations : List Msg :=
    [.totalCapacity vLiters, .effectiveVolume (vLiters * 0.95)]
  return { result := ⟨V, "m³"⟩, inputs := si, intermediate_steps := steps,
           warnings := warnings, recommendations := recommendations }

/-- `_calculate_water_hammer`. -/
def calculate_water_hammer (c : HydraulicCalculator) (si : SIInputs) :
    Except CalcError CalculationResponse := do
  let cw ← getParam si "c"
  let dV ← getParam si "ΔV"
  let dP := c.water_density * cw * dV
  let dPbar := dP / 100000
  let dH := dP / (c.water_density * c.gravity)
  let steps : List IntermediateStep :=
    [⟨"Calculate pressure rise in Pa", dP⟩,
     ⟨"Convert to bar", dPbar⟩,
     ⟨"Calculate head rise", dH⟩]
  let warnings : List Msg := if dPbar > 10 then [msgWHSurge] else []
  let recommendations : List Msg :=
    (if dPbar > 10 then [msgWHProtection] else []) ++
    (if dV > 1 then [msgWHSlowValves] else []) ++
    [.criticalLength (cw * 2)]
  return { result := ⟨dPbar, "bar"⟩, inputs := si, intermediate_steps := steps,
           warnings := warnings, recommendations := recommendations }

/-- `HydraulicCalculator.calculate`: convert the inputs to SI, then
dispatch on the formula id; an id that matches no branch raises
`ValueError("Unknown formula ID: …")`. -/
def calcWith (c : HydraulicCalculator) (formula_id : String) (inputs : RawInputs) :
    Except CalcError CalculationResponse :=
  let si := convert_to_si inputs
  if formula_id = "darcy_weisbach" then calculate_darcy_weisbach c si
  else if formula_id = "hazen_williams" then calculate_hazen_williams c si
  else if formula_id = "continuity_equation" then calculate_continuity c si
  else if formula_id = "orifice_flow" then calculate_orifice_flow c si
  else if formula_id = "pump_power" then calculate_pump_power c si
  else if formula_id = "tank_volume" then calculate_tank_volume c si
  else if formula_id = "water_hammer_pressure" then calculate_water_hammer c si
  else .error (.unknownFormula formula_id)

/-- `calculate` as exercised by the CLI entry point: a freshly
constructed `HydraulicCalculator()` with its constant attributes. -/
def calculate (formula_id : String) (inputs : RawInputs) :
    Except CalcError CalculationResponse :=
  calcWith HydraulicCalculator.init formula_id inputs

/-- The stateful view of a `calculate` method call: the call consumes the
instance and yields the instance the next call sees.  `calculate` and the
evaluators only read `self.gravity` / `self.water_density` /
`self.kinematic_viscosity` and contain no attribute writes, so the
translated call returns the instance unchanged. -/
def calculateSt (c : HydraulicCalculator) (formula_id : String) (inputs : RawInputs) :
    Except CalcError CalculationResponse × HydraulicCalculator :=
  (calcWith c formula_id inputs, c)

/-- The seven catalog formula ids (in dispatch order). -/
def catalogIds : List String :=
  ["darcy_weisbach", "hazen_williams", "continuity_equation", "orifice_flow",
   "pump_power", "tank_volume", "water_hammer_pressure"]

/-- The symbols each evaluator reads from the normalized map, in the
order it reads them. -/
def requiredParams : String → List String
  | "darcy_weisbach" => ["f", "L", "D", "V"]
  | "hazen_williams" => ["L", "Q", "C", "D"]
  | "continuity_equation" => ["A", "V"]
  | "orifice_flow" => ["Cd", "A", "h"]
  | "pump_power" => ["Q", "H", "η"]
  | "tank_volume" => ["D", "H"]
  | "water_hammer_pressure" => ["c", "ΔV"]
  | _ => []

/-- A predicate on the success value of a calculation, trivially true on
an error outcome. -/
def onOk (P : CalculationResponse → Prop) : Except CalcError CalculationResponse → Prop
  | .ok r => P r
  | .error _ => True

/-- Two messages never both occur in one list. -/
def noBoth (m1 m2 : Msg) (l : List Msg) : Prop := ¬(m1 ∈ l ∧ m2 ∈ l)

/-- Already-base darcy_weisbach inputs (units outside the conversion
table pass through). -/
def dwRaw (f L D V : ℚ) : RawInputs :=
  [("f", ⟨f, "-"⟩), ("L", ⟨L, "m"⟩), ("D", ⟨D, "m"⟩), ("V", ⟨V, "m/s"⟩)]

/-- Already-base pump_power inputs. -/
def ppRaw (Q H eta : ℚ) : RawInputs :=
  [("Q", ⟨Q, "m³/s"⟩), ("H", ⟨H, "m"⟩), ("η", ⟨eta, "-"⟩)]

/-- Already-base water_hammer_pressure inputs. -/
def whRaw (c dV : ℚ) : RawInputs :=
  [("c", ⟨c, "m/s"⟩), ("ΔV", ⟨dV, "m/s"⟩)]

section Lemmas

@[simp] theorem ok_bind {α β : Type} (a : α) (k : α → Except CalcError β) :
    (Except.ok a >>= k) = k a := rfl

@[simp] theorem error_bind {α β : Type} (e : CalcError) (k : α → Except CalcError β) :
    ((Except.error e : Except CalcError α) >>= k) = .error e := rfl

@[simp] theorem pure_eq_ok {α : Type} (a : α) :
    (pure a : Except CalcError α) = .ok a := rfl

theorem getParam_some {si : SIInputs} {s : String} {v : ℚ}
    (h : si.lookup s = some v) : getParam si s = .ok v := by
  simp [getParam, h]

theorem getParam_none {si : SIInputs} {s : String}
    (h : si.lookup s = none) : getParam si s = .error (.missingParameter s) := by
  simp [getParam, h]

theorem pydiv_ok {a b : ℚ} (h : b ≠ 0) : pydiv a b = .ok (a / b) := by
  simp [pydiv, h]

theorem pydiv_zero (a : ℚ) : pydiv a 0 = .error .invalidInput := by
  simp [pydiv]

theorem pysqrt_neg {x : ℚ} (h : x < 0) : pysqrt x = .error .invalidInput := by
  simp [pysqrt, h]

/-- Full characterization of the darcy_weisbach evaluator on a map
containing its four symbols, when `D ≠ 0`. -/
theorem darcy_ok (c : HydraulicCalculator) (si : SIInputs) (f L D V : ℚ)
    (hf : si.lookup "f" = some f) (hL : si.lookup "L" = some L)
    (hD : si.lookup "D" = some D) (hV : si.lookup "V" = some V) (hD0 : D ≠ 0) :
    calculate_darcy_weisbach c si = .ok
      { result := ⟨f * (L / D) * (V ^ 2 / (2 * c.gravity)), "m"⟩,
        inputs := si,
        intermediate_steps :=
          [⟨"Calculate velocity head", V ^ 2 / (2 * c.gravity)⟩,
           ⟨"Calculate L/D ratio", L / D⟩,
           ⟨"Calculate Reynolds number", V * D / c.kinematic_viscosity⟩],
        warnings :=
          if V < 0.6 then [msgDWLowVelocity]
          else if V > 3 then [msgDWHighVelocity] else [],
        recommendations :=
          if V * D / c.kinematic_viscosity < 2000 then [msgLaminar]
          else if V * D / c.kinematic_viscosity > 4000 then [msgTurbulent]
          else [] } := by
  simp only [calculate_darcy_weisbach, getParam_some hf, getParam_some hL,
    getParam_some hD, getParam_some hV, pydiv_ok hD0, ok_bind, pure_eq_ok]

theorem pysqrt_ok {x : ℚ} (h : ¬x < 0) : pysqrt x = .ok (Rat.sqrt x) := by
  simp [pysqrt, h]

/-- Full characterization of the hazen_williams evaluator when both
divisions have nonzero denominators. -/
theorem hazen_ok (c : HydraulicCalculator) (si : SIInputs) (L Q C D : ℚ)
    (hL : si.lookup "L" = some L) (hQ : si.lookup "Q" = some Q)
    (hC : si.lookup "C" = some C) (hD : si.lookup "D" = some D)
    (hden : pypow C 1.852 * pypow D 4.871 ≠ 0) (hA : piQ * D ^ 2 / 4 ≠ 0) :
    calculate_hazen_williams c si = .ok
      { result := ⟨10.67 * L * pypow Q 1.852 / (pypow C 1.852 * pypow D 4.871), "m"⟩,
        inputs := si,
        intermediate_steps :=
          [⟨"Calculate pipe area", piQ * D ^ 2 / 4⟩,
           ⟨"Calculate velocity", Q / (piQ * D ^ 2 / 4)⟩],
        warnings :=
          (if C < 100 then [msgHWLowC] else []) ++
          (if Q / (piQ * D ^ 2 / 4) < 0.6 then [msgHWLowVelocity]
           else if Q / (piQ * D ^ 2 / 4) > 3 then [msgHWHighVelocity] else []),
        recommendations :=
          if C < 100 then [] else if C > 140 then [msgHWHighC] else [] } := by
  simp only [calculate_hazen_williams, getParam_some hL, getParam_some hQ,
    getParam_some hC, getParam_some hD, pydiv_ok hden, pydiv_ok hA, ok_bind, pure_eq_ok]

/-- Full characterization of the continuity evaluator when the square
root argument is in range. -/
theorem continuity_ok (c : HydraulicCalculator) (si : SIInputs) (A V : ℚ)
    (hA : si.lookup "A" = some A) (hV : si.lookup "V" = some V)
    (hsq : ¬4 * A / piQ < 0) :
    calculate_continuity c si = .ok
      { result := ⟨A * V, "m³/s"⟩,
        inputs := si,
        intermediate_steps :=
          [⟨"Calculate flow rate", A * V⟩,
           ⟨"Calculate equivalent diameter", Rat.sqrt (4 * A / piQ)⟩],
        warnings :=
          if V < 0.3 then [msgCELowVelocity]
          else if V > 5 then [msgCEHighVelocity] else [],
        recommendations := [] } := by
  simp only [calculate_continuity, getParam_some hA, getParam_some hV,
    pysqrt_ok hsq, ok_bind, pure_eq_ok]

/-- Full characterization of the orifice_flow evaluator when the square
root argument is in range. -/
theorem orifice_ok (c : HydraulicCalculator) (si : SIInputs) (Cd A h : ℚ)
    (hCd : si.lookup "Cd" = some Cd) (hA : si.lookup "A" = some A)
    (hh : si.lookup "h" = some h) (hsq : ¬2 * c.gravity * h < 0) :
    calculate_orifice_flow c si = .ok
      { result := ⟨Cd * A * Rat.sqrt (2 * c.gravity * h), "m³/s"⟩,
        inputs := si,
        intermediate_steps :=
          [⟨"Calculate theoretical velocity", Rat.sqrt (2 * c.gravity * h)⟩,
           ⟨"Calculate theoretical flow", A * Rat.sqrt (2 * c.gravity * h)⟩],
        warnings := if h < 0.1 then [msgOFLowHead] else [],
        recommendations := if Cd < 0.6 then [msgOFLowCd] else [] } := by
  simp only [calculate_orifice_flow, getParam_some hCd, getParam_some hA,
    getParam_some hh, pysqrt_ok hsq, ok_bind, pure_eq_ok]

/-- Full characterization of the pump_power evaluator when `η ≠ 0`. -/
theorem pump_ok (c : HydraulicCalculator) (si : SIInputs) (Q H eta : ℚ)
    (hQ : si.lookup "Q" = some Q) (hH : si.lookup "H" = some H)
    (heta : si.lookup "η" = some eta) (heta0 : eta ≠ 0) :
    calculate_pump_power c si = .ok
      { result := ⟨c.water_density * c.gravity * Q * H / eta / 1000, "kW"⟩,
        inputs := si,
        intermediate_steps :=
          [⟨"Calculate hydraulic power", c.water_density * c.gravity * Q * H⟩,
           ⟨"Calculate shaft power", c.water_density * c.gravity * Q * H / eta⟩],
        warnings := if eta < 0.5 then [msgPPLowEfficiency] else [],
        recommendations :=
          (if c.water_density * c.gravity * Q * H / eta / 1000 > 100
           then [msgPPHighPower] else []) ++
          [.motorSize (c.water_density * c.gravity * Q * H / eta / 1000 * 1.15)] } := by
  simp only [calculate_pump_power, getParam_some hQ, getParam_some hH,
    getParam_some heta, pydiv_ok heta0, ok_bind, pure_eq_ok]

/-- Full characterization of the tank_volume evaluator when `D ≠ 0`. -/
theorem tank_ok (c : HydraulicCalculator) (si : SIInputs) (D H : ℚ)
    (hD : si.lookup "D" = some D) (hH : si.lookup "H" = some H) (hD0 : D ≠ 0) :
    calculate_tank_volume c si = .ok
      { result := ⟨piQ * D ^ 2 / 4 * H, "m³"⟩,
        inputs := si,
        intermediate_steps :=
          [⟨"Calculate tank area", piQ * D ^ 2 / 4⟩,
           ⟨"Calculate volume in m³", piQ * D ^ 2 / 4 * H⟩,
           ⟨"Convert to liters", piQ * D ^ 2 / 4 * H * 1000⟩],
        warnings :=
          if H / D < 0.5 then [msgTVWide]
          else if H / D > 3 then [msgTVTall] else [],
        recommendations :=
          [.totalCapacity (piQ * D ^ 2 / 4 * H * 1000),
           .effectiveVolume (piQ * D ^ 2 / 4 * H * 1000 * 0.95)] } := by
  simp only [calculate_tank_volume, getParam_some hD, getParam_some hH,
    pydiv_ok hD0, ok_bind, pure_eq_ok]

/-- Full characterization of the water_hammer evaluator (no fallible
arithmetic on its path). -/
theorem hammer_ok (c : HydraulicCalculator) (si : SIInputs) (cw dV : ℚ)
    (hc : si.lookup "c" = some cw) (hdV : si.lookup "ΔV" = some dV) :
    calculate_water_hammer c si = .ok
      { result := ⟨c.water_density * cw * dV / 100000, "bar"⟩,
        inputs := si,
        intermediate_steps :=
          [⟨"Calculate pressure rise in Pa", c.water_density * cw * dV⟩,
           ⟨"Convert to bar", c.water_density * cw * dV / 100000⟩,
           ⟨"Calculate head rise",
            c.water_density * cw * dV / (c.water_density * c.gravity)⟩],
        warnings :=
          if c.water_density * cw * dV / 100000 > 10 then [msgWHSurge] else [],
        recommendations :=
          (if c.water_density * cw * dV / 100000 > 10 then [msgWHProtection] else []) ++
          (if dV > 1 then [msgWHSlowValves] else []) ++
          [.criticalLength (cw * 2)] } := by
  simp only [calculate_water_hammer, getParam_some hc, getParam_some hdV,
    ok_bind, pure_eq_ok]

theorem calculate_eq_dw (inputs : RawInputs) : calculate "darcy_weisbach" inputs =
    calculate_darcy_weisbach HydraulicCalculator.init (convert_to_si inputs) := rfl

theorem calculate_eq_hw (inputs : RawInputs) : calculate "hazen_williams" inputs =
    calculate_hazen_williams HydraulicCalculator.init (convert_to_si inputs) := rfl

theorem calculate_eq_ce (inputs : RawInputs) : calculate "continuity_equation" inputs =
    calculate_continuity HydraulicCalculator.init (convert_to_si inputs) := rfl

theorem calculate_eq_of (inputs : RawInputs) : calculate "orifice_flow" inputs =
    calculate_orifice_flow HydraulicCalculator.init (convert_to_si inputs) := rfl

theorem calculate_eq_pp (inputs : RawInputs) : calculate "pump_power" inputs =
    calculate_pump_power HydraulicCalculator.init (convert_to_si inputs) := rfl

theorem calculate_eq_tv (inputs : RawInputs) : calculate "tank_volume" inputs =
    calculate_tank_volume HydraulicCalculator.init (convert_to_si inputs) := rfl

theorem calculate_eq_wh (inputs : RawInputs) : calculate "water_hammer_pressure" inputs =
    calculate_water_hammer HydraulicCalculator.init (convert_to_si inputs) := rfl

/-- Outcome cases for the darcy_weisbach evaluator: an error, or all four
symbols present with a nonzero diameter. -/
theorem darcy_shape (c : HydraulicCalculator) (si : SIInputs) :
    (∃ e, calculate_darcy_weisbach c si = .error e) ∨
    (∃ f L D V, si.lookup "f" = some f ∧ si.lookup "L" = some L ∧
      si.lookup "D" = some D ∧ si.lookup "V" = some V ∧ D ≠ 0) := by
  rcases h1 : si.lookup "f" with _ | f
  · exact .inl ⟨.missingParameter "f", by simp [calculate_darcy_weisbach, getParam_none h1]⟩
  rcases h2 : si.lookup "L" with _ | L
  · exact .inl ⟨.missingParameter "L", by simp [calculate_darcy_weisbach, getParam_some h1, getParam_none h2]⟩
  rcases h3 : si.lookup "D" with _ | D
  · exact .inl ⟨.missingParameter "D", by simp [calculate_darcy_weisbach, getParam_some h1,
      getParam_some h2, getParam_none h3]⟩
  rcases h4 : si.lookup "V" with _ | V
  · exact .inl ⟨.missingParameter "V", by simp [calculate_darcy_weisbach, getParam_some h1,
      getParam_some h2, getParam_some h3, getParam_none h4]⟩
  by_cases hD0 : D = 0
  · exact .inl ⟨.invalidInput, by simp [calculate_darcy_weisbach, getParam_some h1,
      getParam_some h2, getParam_some h3, getParam_some h4, hD0, pydiv_zero]⟩
  · exact .inr ⟨f, L, D, V, rfl, rfl, rfl, rfl, hD0⟩

/-- Outcome cases for the hazen_williams evaluator. -/
theorem hazen_shape (c : HydraulicCalculator) (si : SIInputs) :
    (∃ e, calculate_hazen_williams c si = .error e) ∨
    (∃ L Q C D, si.lookup "L" = some L ∧ si.lookup "Q" = some Q ∧
      si.lookup "C" = some C ∧ si.lookup "D" = some D ∧
      pypow C 1.852 * pypow D 4.871 ≠ 0 ∧ piQ * D ^ 2 / 4 ≠ 0) := by
  rcases h1 : si.lookup "L" with _ | L
  · exact .inl ⟨.missingParameter "L", by simp [calculate_hazen_williams, getParam_none h1]⟩
  rcases h2 : si.lookup "Q" with _ | Q
  · exact .inl ⟨.missingParameter "Q", by simp [calculate_hazen_williams, getParam_some h1, getParam_none h2]⟩
  rcases h3 : si.lookup "C" with _ | C
  · exact .inl ⟨.missingParameter "C", by simp [calculate_hazen_williams, getParam_some h1,
      getParam_some h2, getParam_none h3]⟩
  rcases h4 : si.lookup "D" with _ | D
  · exact .inl ⟨.missingParameter "D", by simp [calculate_hazen_williams, getParam_some h1,
      getParam_some h2, getParam_some h3, getParam_none h4]⟩
  by_cases hden : pypow C 1.852 * pypow D 4.871 = 0
  · exact .inl ⟨.invalidInput, by simp [calculate_hazen_williams, getParam_some h1,
      getParam_some h2, getParam_some h3, getParam_some h4, hden, pydiv_zero]⟩
  by_cases hA : piQ * D ^ 2 / 4 = 0
  · exact .inl ⟨.invalidInput, by simp [calculate_hazen_williams, getParam_some h1,
      getParam_some h2, getParam_some h3, getParam_some h4, pydiv_ok hden, hA, pydiv_zero]⟩
  · exact .inr ⟨L, Q, C, D, rfl, rfl, rfl, rfl, hden, hA⟩

/-- Outcome cases for the continuity evaluator. -/
theorem continuity_shape (c : HydraulicCalculator) (si : SIInputs) :
    (∃ e, calculate_continuity c si = .error e) ∨
    (∃ A V, si.lookup "A" = some A ∧ si.lookup "V" = some V ∧ ¬4 * A / piQ < 0) := by
  rcases h1 : si.lookup "A" with _ | A
  · exact .inl ⟨.missingParameter "A", by simp [calculate_continuity, getParam_none h1]⟩
  rcases h2 : si.lookup "V" with _ | V
  · exact .inl ⟨.missingParameter "V", by simp [calculate_continuity, getParam_some h1, getParam_none h2]⟩
  by_cases hsq : 4 * A / piQ < 0
  · exact .inl ⟨.invalidInput, by simp [calculate_continuity, getParam_some h1,
      getParam_some h2, pysqrt_neg hsq]⟩
  · exact .inr ⟨A, V, rfl, rfl, hsq⟩

/-- Outcome cases for the orifice_flow evaluator. -/
theorem orifice_shape (c : HydraulicCalculator) (si : SIInputs) :
    (∃ e, calculate_orifice_flow c si = .error e) ∨
    (∃ Cd A h, si.lookup "Cd" = some Cd ∧ si.lookup "A" = some A ∧
      si.lookup "h" = some h ∧ ¬2 * c.gravity * h < 0) := by
  rcases h1 : si.lookup "Cd" with _ | Cd
  · exact .inl ⟨.missingParameter "Cd", by simp [calculate_orifice_flow, getParam_none h1]⟩
  rcases h2 : si.lookup "A" with _ | A
  · exact .inl ⟨.missingParameter "A", by simp [calculate_orifice_flow, getParam_some h1, getParam_none h2]⟩
  rcases h3 : si.lookup "h" with _ | h
  · exact .inl ⟨.missingParameter "h", by simp [calculate_orifice_flow, getParam_some h1,
      getParam_some h2, getParam_none h3]⟩
  by_cases hsq : 2 * c.gravity * h < 0
  · exact .inl ⟨.invalidInput, by simp [calculate_orifice_flow, getParam_some h1,
      getParam_some h2, getParam_some h3, pysqrt_neg hsq]⟩
  · exact .inr ⟨Cd, A, h, rfl, rfl, rfl, hsq⟩

/-- Outcome cases for the pump_power evaluator. -/
theorem pump_shape (c : HydraulicCalculator) (si : SIInputs) :
    (∃ e, calculate_pump_power c si = .error e) ∨
    (∃ Q H eta, si.lookup "Q" = some Q ∧ si.lookup "H" = some H ∧
      si.lookup "η" = some eta ∧ eta ≠ 0) := by
  rcases h1 : si.lookup "Q" with _ | Q
  · exact .inl ⟨.missingParameter "Q", by simp [calculate_pump_power, getParam_none h1]⟩
  rcases h2 : si.lookup "H" with _ | H
  · exact .inl ⟨.missingParameter "H", by simp [calculate_pump_power, getParam_some h1, getParam_none h2]⟩
  rcases h3 : si.lookup "η" with _ | eta
  · exact .inl ⟨.missingParameter "η", by simp [calculate_pump_power, getParam_some h1,
      getParam_some h2, getParam_none h3]⟩
  by_cases heta : eta = 0
  · exact .inl ⟨.invalidInput, by simp [calculate_pump_power, getParam_some h1,
      getParam_some h2, getParam_some h3, heta, pydiv_zero]⟩
  · exact .inr ⟨Q, H, eta, rfl, rfl, rfl, heta⟩

/-- Outcome cases for the tank_volume evaluator. -/
theorem tank_shape (c : HydraulicCalculator) (si : SIInputs) :
    (∃ e, calculate_tank_volume c si = .error e) ∨
    (∃ D H, si.lookup "D" = some D ∧ si.lookup "H" = some H ∧ D ≠ 0) := by
  rcases h1 : si.lookup "D" with _ | D
  · exact .inl ⟨.missingParameter "D", by simp [calculate_tank_volume, getParam_none h1]⟩
  rcases h2 : si.lookup "H" with _ | H
  · exact .inl ⟨.missingParameter "H", by simp [calculate_tank_volume, getParam_some h1, getParam_none h2]⟩
  by_cases hD0 : D = 0
  · exact .inl ⟨.invalidInput, by simp [calculate_tank_volume, getParam_some h1,
      getParam_some h2, hD0, pydiv_zero]⟩
  · exact .inr ⟨D, H, rfl, rfl, hD0⟩

/-- Outcome cases for the water_hammer evaluator. -/
theorem hammer_shape (c : HydraulicCalculator) (si : SIInputs) :
    (∃ e, calculate_water_hammer c si = .error e) ∨
    (∃ cw dV, si.lookup "c" = some cw ∧ si.lookup "ΔV" = some dV) := by
  rcases h1 : si.lookup "c" with _ | cw
  · exact .inl ⟨.missingParameter "c", by simp [calculate_water_hammer, getParam_none h1]⟩
  rcases h2 : si.lookup "ΔV" with _ | dV
  · exact .inl ⟨.missingParameter "ΔV", by simp [calculate_water_hammer, getParam_some h1, getParam_none h2]⟩
  · exact .inr ⟨cw, dV, rfl, rfl⟩

/-- If some darcy_weisbach symbol is absent, the evaluator fails with
`missingParameter` naming an absent symbol. -/
theorem darcy_missing (c : HydraulicCalculator) (si : SIInputs)
    (habs : ∃ s ∈ requiredParams "darcy_weisbach", si.lookup s = none) :
    ∃ s ∈ requiredParams "darcy_weisbach", si.lookup s = none ∧
      calculate_darcy_weisbach c si = .error (.missingParameter s) := by
  rcases h1 : si.lookup "f" with _ | f
  · exact ⟨"f", by decide, h1, by simp [calculate_darcy_weisbach, getParam_none h1]⟩
  rcases h2 : si.lookup "L" with _ | L
  · exact ⟨"L", by decide, h2,
      by simp [calculate_darcy_weisbach, getParam_some h1, getParam_none h2]⟩
  rcases h3 : si.lookup "D" with _ | D
  · exact ⟨"D", by decide, h3, by simp [calculate_darcy_weisbach, getParam_some h1,
      getParam_some h2, getParam_none h3]⟩
  rcases h4 : si.lookup "V" with _ | V
  · exact ⟨"V", by decide, h4, by simp [calculate_darcy_weisbach, getParam_some h1,
      getParam_some h2, getParam_some h3, getParam_none h4]⟩
  exfalso
  obtain ⟨s, hs, hnone⟩ := habs
  have he : requiredParams "darcy_weisbach" = ["f", "L", "D", "V"] := rfl
  rw [he] at hs
  simp only [List.mem_cons, List.not_mem_nil, or_false] at hs
  rcases hs with rfl | rfl | rfl | rfl <;> simp_all

/-- If some hazen_williams symbol is absent, the evaluator fails with
`missingParameter` naming an absent symbol. -/
theorem hazen_missing (c : HydraulicCalculator) (si : SIInputs)
    (habs : ∃ s ∈ requiredParams "hazen_williams", si.lookup s = none) :
    ∃ s ∈ requiredParams "hazen_williams", si.lookup s = none ∧
      calculate_hazen_williams c si = .error (.missingParameter s) := by
  rcases h1 : si.lookup "L" with _ | L
  · exact ⟨"L", by decide, h1, by simp [calculate_hazen_williams, getParam_none h1]⟩
  rcases h2 : si.lookup "Q" with _ | Q
  · exact ⟨"Q", by decide, h2,
      by simp [calculate_hazen_williams, getParam_some h1, getParam_none h2]⟩
  rcases h3 : si.lookup "C" with _ | C
  · exact ⟨"C", by decide, h3, by simp [calculate_hazen_williams, getParam_some h1,
      getParam_some h2, getParam_none h3]⟩
  rcases h4 : si.lookup "D" with _ | D
  · exact ⟨"D", by decide, h4, by simp [calculate_hazen_williams, getParam_some h1,
      getParam_some h2, getParam_some h3, getParam_none h4]⟩
  exfalso
  obtain ⟨s, hs, hnone⟩ := habs
  have he : requiredParams "hazen_williams" = ["L", "Q", "C", "D"] := rfl
  rw [he] at hs
  simp only [List.mem_cons, List.not_mem_nil, or_false] at hs
  rcases hs with rfl | rfl | rfl | rfl <;> simp_all

/-- If some continuity_equation symbol is absent, the evaluator fails
with `missingParameter` naming an absent symbol. -/
theorem continuity_missing (c : HydraulicCalculator) (si : SIInputs)
    (habs : ∃ s ∈ requiredParams "continuity_equation", si.lookup s = none) :
    ∃ s ∈ requiredParams "continuity_equation", si.lookup s = none ∧
      calculate_continuity c si = .error (.missingParameter s) := by
  rcases h1 : si.lookup "A" with _ | A
  · exact ⟨"A", by decide, h1, by simp [calculate_continuity, getParam_none h1]⟩
  rcases h2 : si.lookup "V" with _ | V
  · exact ⟨"V", by decide, h2,
      by simp [calculate_continuity, getParam_some h1, getParam_none h2]⟩
  exfalso
  obtain ⟨s, hs, hnone⟩ := habs
  have he : requiredParams "continuity_equation" = ["A", "V"] := rfl
  rw [he] at hs
  simp only [List.mem_cons, List.not_mem_nil, or_false] at hs
  rcases hs with rfl | rfl <;> simp_all

/-- If some orifice_flow symbol is absent, the evaluator fails with
`missingParameter` naming an absent symbol. -/
theorem orifice_missing (c : HydraulicCalculator) (si : SIInputs)
    (habs : ∃ s ∈ requiredParams "orifice_flow", si.lookup s = none) :
    ∃ s ∈ requiredParams "orifice_flow", si.lookup s = none ∧
      calculate_orifice_flow c si = .error (.missingParameter s) := by
  rcases h1 : si.lookup "Cd" with _ | Cd
  · exact ⟨"Cd", by decide, h1, by simp [calculate_orifice_flow, getParam_none h1]⟩
  rcases h2 : si.lookup "A" with _ | A
  · exact ⟨"A", by decide, h2,
      by simp [calculate_orifice_flow, getParam_some h1, getParam_none h2]⟩
  rcases h3 : si.lookup "h" with _ | h
  · exact ⟨"h", by decide, h3, by simp [calculate_orifice_flow, getParam_some h1,
      getParam_some h2, getParam_none h3]⟩
  exfalso
  obtain ⟨s, hs, hnone⟩ := habs
  have he : requiredParams "orifice_flow" = ["Cd", "A", "h"] := rfl
  rw [he] at hs
  simp only [List.mem_cons, List.not_mem_nil, or_false] at hs
  rcases hs with rfl | rfl | rfl <;> simp_all

/-- If some pump_power symbol is absent, the evaluator fails with
`missingParameter` naming an absent symbol. -/
theorem pump_missing (c : HydraulicCalculator) (si : SIInputs)
    (habs : ∃ s ∈ requiredParams "pump_power", si.lookup s = none) :
    ∃ s ∈ requiredParams "pump_power", si.lookup s = none ∧
      calculate_pump_power c si = .error (.missingParameter s) := by
  rcases h1 : si.lookup "Q" with _ | Q
  · exact ⟨"Q", by decide, h1, by simp [calculate_pump_power, getParam_none h1]⟩
  rcases h2 : si.lookup "H" with _ | H
  · exact ⟨"H", by decide, h2,
      by simp [calculate_pump_power, getParam_some h1, getParam_none h2]⟩
  rcases h3 : si.lookup "η" with _ | eta
  · exact ⟨"η", by decide, h3, by simp [calculate_pump_power, getParam_some h1,
      getParam_some h2, getParam_none h3]⟩
  exfalso
  obtain ⟨s, hs, hnone⟩ := habs
  have he : requiredParams "pump_power" = ["Q", "H", "η"] := rfl
  rw [he] at hs
  simp only [List.mem_cons, List.not_mem_nil, or_false] at hs
  rcases hs with rfl | rfl | rfl <;> simp_all

/-- If some tank_volume symbol is absent, the evaluator fails with
`missingParameter` naming an absent symbol. -/
theorem tank_missing (c : HydraulicCalculator) (si : SIInputs)
    (habs : ∃ s ∈ requiredParams "tank_volume", si.lookup s = none) :
    ∃ s ∈ requiredParams "tank_volume", si.lookup s = none ∧
      calculate_tank_volume c si = .error (.missingParameter s) := by
  rcases h1 : si.lookup "D" with _ | D
  · exact ⟨"D", by decide, h1, by simp [calculate_tank_volume, getParam_none h1]⟩
  rcases h2 : si.lookup "H" with _ | H
  · exact ⟨"H", by decide, h2,
      by simp [calculate_tank_volume, getParam_some h1, getParam_none h2]⟩
  exfalso
  obtain ⟨s, hs, hnone⟩ := habs
  have he : requiredParams "tank_volume" = ["D", "H"] := rfl
  rw [he] at hs
  simp only [List.mem_cons, List.not_mem_nil, or_false] at hs
  rcases hs with rfl | rfl <;> simp_all

/-- If some water_hammer_pressure symbol is absent, the evaluator fails
with `missingParameter` naming an absent symbol. -/
theorem hammer_missing (c : HydraulicCalculator) (si : SIInputs)
    (habs : ∃ s ∈ requiredParams "water_hammer_pressure", si.lookup s = none) :
    ∃ s ∈ requiredParams "water_hammer_pressure", si.lookup s = none ∧
      calculate_water_hammer c si = .error (.missingParameter s) := by
  rcases h1 : si.lookup "c" with _ | cw
  · exact ⟨"c", by decide, h1, by simp [calculate_water_hammer, getParam_none h1]⟩
  rcases h2 : si.lookup "ΔV" with _ | dV
  · exact ⟨"ΔV", by decide, h2,
      by simp [calculate_water_hammer, getParam_some h1, getParam_none h2]⟩
  exfalso
  obtain ⟨s, hs, hnone⟩ := habs
  have he : requiredParams "water_hammer_pressure" = ["c", "ΔV"] := rfl
  rw [he] at hs
  simp only [List.mem_cons, List.not_mem_nil, or_false] at hs
  rcases hs with rfl | rfl <;> simp_all

end Lemmas

/-- C1: Unit normalization converts each `(value, unit)` pair by exactly
one factor keyed by the literal unit string — ft ×0.3048, km ×1000,
mm ÷1000, in ×0.0254, cm ÷100, cm² ÷10000, ft² ×0.092903, in² ×0.00064516,
L/s ÷1000, gpm ×0.00006309, ft/s ×0.3048 — every unrecognized unit string
passes the value through unchanged with no error, and the factor depends
only on the unit string (the same `convert_unit` is applied to every
parameter, never consulting the symbol). -/
theorem unit_normalization_table :
    (∀ (v : ℚ) (u : String), u ∉ recognizedUnits → convert_unit v u = v) ∧
    (∀ v : ℚ, convert_unit v "ft" = v * 0.3048) ∧
    (∀ v : ℚ, convert_unit v "km" = v * 1000) ∧
    (∀ v : ℚ, convert_unit v "mm" = v / 1000) ∧
    (∀ v : ℚ, convert_unit v "in" = v * 0.0254) ∧
    (∀ v : ℚ, convert_unit v "cm" = v / 100) ∧
    (∀ v : ℚ, convert_unit v "cm²" = v / 10000) ∧
    (∀ v : ℚ, convert_unit v "ft²" = v * 0.092903) ∧
    (∀ v : ℚ, convert_unit v "in²" = v * 0.00064516) ∧
    (∀ v : ℚ, convert_unit v "L/s" = v / 1000) ∧
    (∀ v : ℚ, convert_unit v "gpm" = v * 0.00006309) ∧
    (∀ v : ℚ, convert_unit v "ft/s" = v * 0.3048) ∧
    (∀ inputs : RawInputs, convert_to_si inputs =
      inputs.map fun p => (p.1, convert_unit p.2.value p.2.unit)) := by
  refine ⟨?_, fun v => rfl, fun v => rfl, fun v => rfl, fun v => rfl, fun v => rfl,
    fun v => rfl, fun v => rfl, fun v => rfl, fun v => rfl, fun v => rfl, fun v => rfl,
    fun inputs => rfl⟩
  intro v u h
  simp only [recognizedUnits, List.mem_cons, List.not_mem_nil, or_false, not_or] at h
  obtain ⟨h1, h2, h3, h4, h5, h6, h7, h8, h9, h10, h11⟩ := h
  simp [convert_unit, h1, h2, h3, h4, h5, h6, h7, h8, h9, h10, h11]

/-- C1 witness: a unit outside the table ("psi") passes through unchanged. -/
theorem unit_normalization_table_witness :
    "psi" ∉ recognizedUnits ∧ convert_unit 7 "psi" = 7 :=
  ⟨by decide, unit_normalization_table.1 7 "psi" (by decide)⟩

/-- C2: for every formula id outside the seven catalog ids and every
input map, `calculate` fails with `UnknownFormula` carrying that id; the
outcome is the bare error, never a (partial) response. -/
theorem unknown_formula_error (fid : String) (inputs : RawInputs)
    (h : fid ∉ catalogIds) :
    calculate fid inputs = .error (.unknownFormula fid) := by
  simp only [catalogIds, List.mem_cons, List.not_mem_nil, or_false, not_or] at h
  obtain ⟨h1, h2, h3, h4, h5, h6, h7⟩ := h
  simp [calculate, calcWith, h1, h2, h3, h4, h5, h6, h7]

/-- C2 witness: `calculate("not_a_formula", {})` fails with
`UnknownFormula`. -/
theorem unknown_formula_error_witness :
    "not_a_formula" ∉ catalogIds ∧
    calculate "not_a_formula" [] = .error (.unknownFormula "not_a_formula") :=
  ⟨by decide, unknown_formula_error "not_a_formula" [] (by decide)⟩

/-- C3: for each of the seven catalog formula ids, whenever a symbol the
formula's evaluator requires is absent from the normalized input map,
`calculate` fails with a `MissingParameter` error naming an absent
required symbol. -/
theorem missing_parameter_error (fid : String) (inputs : RawInputs)
    (hfid : fid ∈ catalogIds)
    (habs : ∃ s ∈ requiredParams fid, (convert_to_si inputs).lookup s = none) :
    ∃ s ∈ requiredParams fid, (convert_to_si inputs).lookup s = none ∧
      calculate fid inputs = .error (.missingParameter s) := by
  simp only [catalogIds, List.mem_cons, List.not_mem_nil, or_false] at hfid
  rcases hfid with rfl | rfl | rfl | rfl | rfl | rfl | rfl
  · exact darcy_missing HydraulicCalculator.init _ habs
  · exact hazen_missing HydraulicCalculator.init _ habs
  · exact continuity_missing HydraulicCalculator.init _ habs
  · exact orifice_missing HydraulicCalculator.init _ habs
  · exact pump_missing HydraulicCalculator.init _ habs
  · exact tank_missing HydraulicCalculator.init _ habs
  · exact hammer_missing HydraulicCalculator.init _ habs

/-- C3 witness: a pump_power call whose input map lacks "η" fails with
`MissingParameter "η"`. -/
theorem missing_parameter_error_witness :
    ∃ s ∈ requiredParams "pump_power",
      (convert_to_si [("Q", ⟨0.05, "m³/s"⟩), ("H", ⟨30, "m"⟩)]).lookup s = none ∧
      calculate "pump_power" [("Q", ⟨0.05, "m³/s"⟩), ("H", ⟨30, "m"⟩)] =
        .error (.missingParameter s) :=
  missing_parameter_error "pump_power" [("Q", ⟨0.05, "m³/s"⟩), ("H", ⟨30, "m"⟩)]
    (by decide) ⟨"η", by decide, rfl⟩

/-- C4: on domain-violating numeric input `calculate` fails with an
`InvalidInput` error instead of silently producing a NaN or a
division-by-zero special value: orifice_flow with `h < 0` (negative head
under the square root), and darcy_weisbach or hazen_williams with
`D = 0`, all fail with `invalidInput`. -/
theorem invalid_input_error :
    (∀ (inputs : RawInputs) (Cd A h : ℚ),
      (convert_to_si inputs).lookup "Cd" = some Cd →
      (convert_to_si inputs).lookup "A" = some A →
      (convert_to_si inputs).lookup "h" = some h → h < 0 →
      calculate "orifice_flow" inputs = .error .invalidInput) ∧
    (∀ (inputs : RawInputs) (f L V : ℚ),
      (convert_to_si inputs).lookup "f" = some f →
      (convert_to_si inputs).lookup "L" = some L →
      (convert_to_si inputs).lookup "D" = some 0 →
      (convert_to_si inputs).lookup "V" = some V →
      calculate "darcy_weisbach" inputs = .error .invalidInput) ∧
    (∀ (inputs : RawInputs) (L Q C : ℚ),
      (convert_to_si inputs).lookup "L" = some L →
      (convert_to_si inputs).lookup "Q" = some Q →
      (convert_to_si inputs).lookup "C" = some C →
      (convert_to_si inputs).lookup "D" = some 0 →
      calculate "hazen_williams" inputs = .error .invalidInput) := by
  refine ⟨?_, ?_, ?_⟩
  · intro inputs Cd A h hCd hA hh hneg
    have hsq : 2 * HydraulicCalculator.init.gravity * h < 0 := by
      have hg : (0 : ℚ) < 2 * HydraulicCalculator.init.gravity := by
        norm_num [HydraulicCalculator.init]
      exact mul_neg_of_pos_of_neg hg hneg
    rw [calculate_eq_of]
    simp [calculate_orifice_flow, getParam_some hCd, getParam_some hA,
      getParam_some hh, pysqrt_neg hsq]
  · intro inputs f L V hf hL hD hV
    rw [calculate_eq_dw]
    simp [calculate_darcy_weisbach, getParam_some hf, getParam_some hL,
      getParam_some hD, getParam_some hV, pydiv_zero]
  · intro inputs L Q C hL hQ hC hD
    have hden : pypow C 1.852 * pypow (0 : ℚ) 4.871 = 0 := by simp [pypow]
    rw [calculate_eq_hw]
    simp [calculate_hazen_williams, getParam_some hL, getParam_some hQ,
      getParam_some hC, getParam_some hD, hden, pydiv_zero]

/-- C4 witness: concrete domain-violating calls — orifice_flow with
h = −1 m, darcy_weisbach with D = 0, hazen_williams with D = 0 — all
fail with `invalidInput`. -/
theorem invalid_input_error_witness :
    calculate "orifice_flow"
      [("Cd", ⟨0.61, "-"⟩), ("A", ⟨0.01, "m²"⟩), ("h", ⟨-1, "m"⟩)] =
      .error .invalidInput ∧
    calculate "darcy_weisbach" (dwRaw 0.02 100 0 2) = .error .invalidInput ∧
    calculate "hazen_williams"
      [("L", ⟨100, "m"⟩), ("Q", ⟨0.05, "m³/s"⟩), ("C", ⟨130, "-"⟩), ("D", ⟨0, "m"⟩)] =
      .error .invalidInput :=
  ⟨invalid_input_error.1 _ 0.61 0.01 (-1) rfl rfl rfl (by norm_num),
   invalid_input_error.2.1 _ 0.02 100 2 rfl rfl rfl rfl,
   invalid_input_error.2.2 _ 100 0.05 130 rfl rfl rfl rfl⟩

/-- C5 counterexample: at f=0.02, L=100, D=0.15, V=2 the Reynolds
intermediate step is exactly 2×0.15/1.003e-6 = 300000000/1003 ≈ 299102.69,
which exceeds the claimed 298,903 by more than 199 — it does not round to
298,903 at the precision the claim states (the correct rounding is
299,103). -/
theorem darcy_reynolds_claim_false :
    ((calculate "darcy_weisbach" (dwRaw 0.02 100 0.15 2)).map
      fun r => r.intermediate_steps.map IntermediateStep.result)
      = .ok [200/981, 2000/3, 300000000/1003] ∧
    298903 + 199 < (300000000 : ℚ) / 1003 := by
  constructor
  · rw [calculate_eq_dw, darcy_ok HydraulicCalculator.init
      (convert_to_si (dwRaw 0.02 100 0.15 2)) 0.02 100 0.15 2
      rfl rfl rfl rfl (by norm_num)]
    simp only [Except.map, HydraulicCalculator.init, List.map]
    norm_num
  · norm_num

/-- C5 (amended): for every normalized darcy_weisbach input {f, L, D, V}
with D ≠ 0, `calculate` returns hf = f·(L/D)·(V²/(2·9.81)) in meters with
intermediate steps V²/(2g), L/D and Re = V·D/1.003e-6 in that order; the
laminar recommendation is present exactly when Re < 2000 and the
turbulent Colebrook/Moody recommendation exactly when Re > 4000; with
f=0.02, L=100, D=0.15, V=2 the result is ≈ 2.718 m and Reynolds
≈ 299,103 (not 298,903), with the Colebrook recommendation present. -/
theorem darcy_weisbach_spec :
    (∀ f L D V : ℚ, D ≠ 0 → ∃ r,
      calculate "darcy_weisbach" (dwRaw f L D V) = .ok r ∧
      r.result = ⟨f * (L / D) * (V ^ 2 / (2 * 9.81)), "m"⟩ ∧
      r.intermediate_steps =
        [⟨"Calculate velocity head", V ^ 2 / (2 * 9.81)⟩,
         ⟨"Calculate L/D ratio", L / D⟩,
         ⟨"Calculate Reynolds number", V * D / 1.003e-6⟩] ∧
      (msgLaminar ∈ r.recommendations ↔ V * D / 1.003e-6 < 2000) ∧
      (msgTurbulent ∈ r.recommendations ↔ V * D / 1.003e-6 > 4000)) ∧
    (∃ r, calculate "darcy_weisbach" (dwRaw 0.02 100 0.15 2) = .ok r ∧
      r.result.unit = "m" ∧
      2.718 - 1/1000 < r.result.value ∧ r.result.value < 2.718 + 1/1000 ∧
      (∃ re, r.intermediate_steps.map IntermediateStep.result =
          [2 ^ 2 / (2 * 9.81), 100 / 0.15, re] ∧
        299103 - 1/2 < re ∧ re < 299103 + 1/2) ∧
      msgTurbulent ∈ r.recommendations) := by
  constructor
  · intro f L D V hD0
    have hok := darcy_ok HydraulicCalculator.init (convert_to_si (dwRaw f L D V))
      f L D V rfl rfl rfl rfl hD0
    refine ⟨_, by rw [calculate_eq_dw, hok], rfl, rfl, ?_, ?_⟩
    · show msgLaminar ∈ (if V * D / 1.003e-6 < 2000 then [msgLaminar]
        else if V * D / 1.003e-6 > 4000 then [msgTurbulent] else []) ↔ _
      split_ifs with h1 h2
      · simp [h1]
      · simp [msgLaminar, msgTurbulent, h1]
      · simp [h1]
    · show msgTurbulent ∈ (if V * D / 1.003e-6 < 2000 then [msgLaminar]
        else if V * D / 1.003e-6 > 4000 then [msgTurbulent] else []) ↔ _
      split_ifs with h1 h2
      · simp only [msgLaminar, msgTurbulent, List.mem_singleton]
        constructor
        · intro hcontra; exact absurd hcontra (by simp)
        · intro hgt; linarith
      · simp [h2]
      · simp [h2]
  · have hok := darcy_ok HydraulicCalculator.init (convert_to_si (dwRaw 0.02 100 0.15 2))
      0.02 100 0.15 2 rfl rfl rfl rfl (by norm_num)
    refine ⟨_, by rw [calculate_eq_dw, hok], rfl,
      by norm_num [HydraulicCalculator.init], by norm_num [HydraulicCalculator.init],
      ⟨2 * 0.15 / (1.003e-6 : ℚ), by simp [HydraulicCalculator.init], by norm_num,
        by norm_num⟩, ?_⟩
    show msgTurbulent ∈ (if (2 : ℚ) * 0.15 / 1.003e-6 < 2000 then [msgLaminar]
      else if (2 : ℚ) * 0.15 / 1.003e-6 > 4000 then [msgTurbulent] else [])
    norm_num

/-- C5 witness: the amended theorem's universal part applied at the
spec's concrete darcy example. -/
theorem darcy_weisbach_spec_witness :
    ∃ r, calculate "darcy_weisbach" (dwRaw 0.02 100 0.15 2) = .ok r ∧
      r.result = ⟨0.02 * (100 / 0.15) * (2 ^ 2 / (2 * 9.81)), "m"⟩ ∧
      r.intermediate_steps =
        [⟨"Calculate velocity head", 2 ^ 2 / (2 * 9.81)⟩,
         ⟨"Calculate L/D ratio", 100 / 0.15⟩,
         ⟨"Calculate Reynolds number", 2 * 0.15 / 1.003e-6⟩] ∧
      (msgLaminar ∈ r.recommendations ↔ (2 : ℚ) * 0.15 / 1.003e-6 < 2000) ∧
      (msgTurbulent ∈ r.recommendations ↔ (2 : ℚ) * 0.15 / 1.003e-6 > 4000) :=
  darcy_weisbach_spec.1 0.02 100 0.15 2 (by norm_num)

/-- C6: for every normalized pump_power input {Q, H, η} with η ≠ 0 the
primary result is 1000·9.81·Q·H/η/1000 in kW and the recommendations
include a recommended motor size equal to the result × 1.15; with Q=0.05,
H=30, η=0.75 the result is exactly 19.62 kW and a motor-size
recommendation of ≈ 22.56 kW (exactly 22.563) is present. -/
theorem pump_power_spec :
    (∀ Q H eta : ℚ, eta ≠ 0 → ∃ r,
      calculate "pump_power" (ppRaw Q H eta) = .ok r ∧
      r.result = ⟨1000 * 9.81 * Q * H / eta / 1000, "kW"⟩ ∧
      Msg.motorSize (r.result.value * 1.15) ∈ r.recommendations) ∧
    (∃ r, calculate "pump_power" (ppRaw 0.05 30 0.75) = .ok r ∧
      r.result = ⟨19.62, "kW"⟩ ∧
      (∃ m, Msg.motorSize m ∈ r.recommendations ∧
        22.56 - 1/200 < m ∧ m < 22.56 + 1/200)) := by
  constructor
  · intro Q H eta heta0
    have hok := pump_ok HydraulicCalculator.init (convert_to_si (ppRaw Q H eta))
      Q H eta rfl rfl rfl heta0
    refine ⟨_, by rw [calculate_eq_pp, hok], rfl, ?_⟩
    simp [List.mem_append]
  · have hok := pump_ok HydraulicCalculator.init (convert_to_si (ppRaw 0.05 30 0.75))
      0.05 30 0.75 rfl rfl rfl (by norm_num)
    refine ⟨_, by rw [calculate_eq_pp, hok],
      by simp only [HydraulicCalculator.init]; norm_num,
      ⟨1000 * 9.81 * 0.05 * 30 / 0.75 / 1000 * 1.15,
        by simp [HydraulicCalculator.init, List.mem_append],
        by norm_num, by norm_num⟩⟩

/-- C6 witness: the universal part applied at the spec's concrete pump
example (η = 0.75 ≠ 0). -/
theorem pump_power_spec_witness :
    ∃ r, calculate "pump_power" (ppRaw 0.05 30 0.75) = .ok r ∧
      r.result = ⟨1000 * 9.81 * 0.05 * 30 / 0.75 / 1000, "kW"⟩ ∧
      Msg.motorSize (r.result.value * 1.15) ∈ r.recommendations :=
  pump_power_spec.1 0.05 30 0.75 (by norm_num)

/-- C7: for every normalized water_hammer_pressure input {c, ΔV} the
primary result is 1000·c·ΔV/100000 bar; the surge-damage warning and the
surge-protection recommendation are present exactly when that value
exceeds 10, the slow-closing-valve recommendation exactly when ΔV > 1,
and a critical-pipe-length recommendation of 2·c meters is emitted on
every call; with c=1200, ΔV=2 the result is 24 bar, the >10-bar warning
is present, and the critical length is 2,400 m. -/
theorem water_hammer_spec :
    (∀ cw dV : ℚ, ∃ r,
      calculate "water_hammer_pressure" (whRaw cw dV) = .ok r ∧
      r.result = ⟨1000 * cw * dV / 100000, "bar"⟩ ∧
      (msgWHSurge ∈ r.warnings ↔ 1000 * cw * dV / 100000 > 10) ∧
      (msgWHProtection ∈ r.recommendations ↔ 1000 * cw * dV / 100000 > 10) ∧
      (msgWHSlowValves ∈ r.recommendations ↔ dV > 1) ∧
      Msg.criticalLength (2 * cw) ∈ r.recommendations) ∧
    (∃ r, calculate "water_hammer_pressure" (whRaw 1200 2) = .ok r ∧
      r.result = ⟨24, "bar"⟩ ∧ msgWHSurge ∈ r.warnings ∧
      Msg.criticalLength 2400 ∈ r.recommendations) := by
  constructor
  · intro cw dV
    have hok := hammer_ok HydraulicCalculator.init (convert_to_si (whRaw cw dV))
      cw dV rfl rfl
    refine ⟨_, by rw [calculate_eq_wh, hok], rfl, ?_, ?_, ?_, ?_⟩
    · show msgWHSurge ∈ (if (1000 : ℚ) * cw * dV / 100000 > 10
        then [msgWHSurge] else []) ↔ _
      split_ifs with h1 <;> simp [h1]
    · show msgWHProtection ∈
        ((if (1000 : ℚ) * cw * dV / 100000 > 10 then [msgWHProtection] else []) ++
         (if dV > 1 then [msgWHSlowValves] else []) ++
         [.criticalLength (cw * 2)]) ↔ _
      split_ifs <;> simp [msgWHProtection, msgWHSlowValves, *]
    · show msgWHSlowValves ∈
        ((if (1000 : ℚ) * cw * dV / 100000 > 10 then [msgWHProtection] else []) ++
         (if dV > 1 then [msgWHSlowValves] else []) ++
         [.criticalLength (cw * 2)]) ↔ _
      split_ifs <;> simp [msgWHProtection, msgWHSlowValves, *]
    · have hcomm : (2 : ℚ) * cw = cw * 2 := mul_comm _ _
      rw [hcomm]
      simp [List.mem_append]
  · have hok := hammer_ok HydraulicCalculator.init (convert_to_si (whRaw 1200 2))
      1200 2 rfl rfl
    refine ⟨_, by rw [calculate_eq_wh, hok],
      by simp only [HydraulicCalculator.init]; norm_num, ?_, ?_⟩
    · show msgWHSurge ∈ (if HydraulicCalculator.init.water_density * 1200 * 2 / 100000 > 10
        then [msgWHSurge] else [])
      norm_num [HydraulicCalculator.init]
    · simp [HydraulicCalculator.init, List.mem_append]
      norm_num

/-- C8: `calculate` is deterministic and stateless — a call leaves the
calculator instance unchanged (no method writes any attribute), and a
second call on the instance coming out of the first call, with identical
arguments, produces the identical outcome. -/
theorem calculate_deterministic_stateless (c : HydraulicCalculator)
    (fid : String) (inputs : RawInputs) :
    (calculateSt c fid inputs).2 = c ∧
    calculateSt (calculateSt c fid inputs).2 fid inputs = calculateSt c fid inputs :=
  ⟨rfl, rfl⟩

/-- C9: at a concrete successful call (the spec's darcy example, with the
diameter supplied in millimetres), the response's `inputs` field is the
bare `symbol → number` SI map — the units are dropped — not a
`symbol → {value, unit}` mapping as the `CalculationResponse` annotation
and the spec's `CalculationInput` shape promise. -/
theorem response_inputs_bare_si_map :
    (calculate "darcy_weisbach"
      [("f", ⟨0.02, "-"⟩), ("L", ⟨100, "m"⟩), ("D", ⟨150, "mm"⟩), ("V", ⟨2, "m/s"⟩)]).map
      CalculationResponse.inputs
      = .ok [("f", 0.02), ("L", 100), ("D", 0.15), ("V", 2)] := by
  rw [calculate_eq_dw, darcy_ok HydraulicCalculator.init _ 0.02 100 0.15 2
    (by simp [convert_to_si, convert_unit, List.lookup])
    (by simp [convert_to_si, convert_unit, List.lookup])
    (by simp [convert_to_si, convert_unit, List.lookup]; norm_num)
    (by simp [convert_to_si, convert_unit, List.lookup])
    (by norm_num)]
  simp [convert_to_si, convert_unit, Except.map, List.lookup]
  norm_num

/-- C10: paired threshold diagnostics are mutually exclusive in every
successful response: never both the low- and high-velocity warnings
(darcy_weisbach, hazen_williams, continuity_equation), never both the
laminar and turbulent recommendations (darcy_weisbach), never both the
low-C warning and the high-C recommendation (hazen_williams), never both
the too-wide and too-tall warnings (tank_volume). -/
theorem paired_diagnostics_exclusive :
    (∀ inputs : RawInputs, onOk (fun r =>
        noBoth msgDWLowVelocity msgDWHighVelocity r.warnings ∧
        noBoth msgLaminar msgTurbulent r.recommendations)
      (calculate "darcy_weisbach" inputs)) ∧
    (∀ inputs : RawInputs, onOk (fun r =>
        noBoth msgHWLowVelocity msgHWHighVelocity r.warnings ∧
        ¬(msgHWLowC ∈ r.warnings ∧ msgHWHighC ∈ r.recommendations))
      (calculate "hazen_williams" inputs)) ∧
    (∀ inputs : RawInputs, onOk (fun r =>
        noBoth msgCELowVelocity msgCEHighVelocity r.warnings)
      (calculate "continuity_equation" inputs)) ∧
    (∀ inputs : RawInputs, onOk (fun r =>
        noBoth msgTVWide msgTVTall r.warnings)
      (calculate "tank_volume" inputs)) := by
  refine ⟨?_, ?_, ?_, ?_⟩
  · intro inputs
    rw [calculate_eq_dw]
    rcases darcy_shape HydraulicCalculator.init (convert_to_si inputs) with
      ⟨e, he⟩ | ⟨f, L, D, V, h1, h2, h3, h4, hD0⟩
    · rw [he]; exact trivial
    · rw [darcy_ok HydraulicCalculator.init _ f L D V h1 h2 h3 h4 hD0]
      refine ⟨?_, ?_⟩ <;> (simp only [noBoth]; split_ifs <;> decide)
  · intro inputs
    rw [calculate_eq_hw]
    rcases hazen_shape HydraulicCalculator.init (convert_to_si inputs) with
      ⟨e, he⟩ | ⟨L, Q, C, D, h1, h2, h3, h4, hden, hA⟩
    · rw [he]; exact trivial
    · rw [hazen_ok HydraulicCalculator.init _ L Q C D h1 h2 h3 h4 hden hA]
      refine ⟨?_, ?_⟩ <;> (simp only [noBoth]; split_ifs <;> decide)
  · intro inputs
    rw [calculate_eq_ce]
    rcases continuity_shape HydraulicCalculator.init (convert_to_si inputs) with
      ⟨e, he⟩ | ⟨A, V, h1, h2, hsq⟩
    · rw [he]; exact trivial
    · rw [continuity_ok HydraulicCalculator.init _ A V h1 h2 hsq]
      simp only [onOk, noBoth]; split_ifs <;> decide
  · intro inputs
    rw [calculate_eq_tv]
    rcases tank_shape HydraulicCalculator.init (convert_to_si inputs) with
      ⟨e, he⟩ | ⟨D, H, h1, h2, hD0⟩
    · rw [he]; exact trivial
    · rw [tank_ok HydraulicCalculator.init _ D H h1 h2 hD0]
      simp only [onOk, noBoth]; split_ifs <;> decide

end Hydraulic
